import Mathlib

/-!
Shallow embedding of the PosterBackend HTTP service (src/index.js).

The service is an Express router over five Mongoose collections
(RADashboardImage, AdminPoster, Banner, Feedback, MessageTemplate).
Each route handler is embedded as a pure function from the request data
and the database state to the new state plus an HTTP response.

Modelling conventions, matching the JavaScript source:
- a request body field is `Option` (absent key = `none`); JavaScript
  truthiness of a string is `s != ""`, of a number `n != 0`;
- `fail : Option String` stands for the awaited store call throwing
  (store unavailable / driver error); the exception message is caught
  by the handler's catch block exactly as in the source;
- Mongoose `Model.find` always resolves to an array; `findByIdAndUpdate`
  with `new: true` returns the merged document, with `runValidators`
  re-running the schema validators on the set paths; `timestamps: true`
  sets `createdAt`/`updatedAt` on save and advances `updatedAt` on update;
- `undefined` values inside an update object are dropped before the
  update is applied (Mongoose ≥ 6 behaviour), so a destructured field
  that the request did not supply leaves the stored field untouched.
-/

namespace PosterBackend

/-- A JSON value, the shape of every response body sent by the router. -/
inductive JVal where
  | jnull : JVal
  | jstr : String → JVal
  | jnum : Int → JVal
  | jbool : Bool → JVal
  | jarr : List JVal → JVal
  | jobj : List (String × JVal) → JVal
deriving Repr

/-- Whether a JSON object body carries the given top-level key. -/
def JVal.hasKey : JVal → String → Bool
  | .jobj fs, k => fs.any (fun p => p.1 == k)
  | _, _ => false

/-- An HTTP response: status code plus JSON body. -/
structure Resp where
  status : Nat
  body : JVal
deriving Repr

/-- The single-quote character used by the template literals of the source
(for example `No image found with id '${id}'`). -/
def sq : String := String.singleton (Char.ofNat 39)

/-- A body of the form `{ message: m }`, as produced by `res.json({ message: ... })`. -/
def jmsg (m : String) : JVal := .jobj [("message", .jstr m)]

/-- The catch-block response of the image, poster and banner handlers:
`res.status(500).json({ message: "Server Error", error: error.message })`. -/
def serverError (e : String) : Resp :=
  ⟨500, .jobj [("message", .jstr "Server Error"), ("error", .jstr e)]⟩

/-- A stored RADashboardImage document. -/
structure ImageRec where
  oid : String
  expertId : String
  imageurl : String
  type : String
  name : String
  createdAt : Nat
  updatedAt : Nat
deriving Repr, DecidableEq

/-- A stored AdminPoster document. -/
structure PosterRec where
  oid : String
  image1url : String
  image2url : String
  type : Int
  name : String
  createdAt : Nat
  updatedAt : Nat
deriving Repr, DecidableEq

/-- A stored Banner document. -/
structure BannerRec where
  oid : String
  type : String
  imageurl : String
  name : String
  createdAt : Nat
  updatedAt : Nat
deriving Repr, DecidableEq

/-- A stored Feedback document (the schema exists; no route touches it). -/
structure FeedbackRec where
  oid : String
  star : Int
  description : String
  userId : String
  name : String
  mobileNumber : String
  createdAt : Nat
  updatedAt : Nat
deriving Repr, DecidableEq

/-- A stored MessageTemplate document; no field is required, so each may
be absent. -/
structure TemplateRec where
  oid : String
  raid : Option String
  templatename : Option String
  headingcontent : Option String
  footercontent : Option String
  type : Option String
  createdAt : Nat
  updatedAt : Nat
deriving Repr, DecidableEq

/-- The whole database: the five Mongoose collections. -/
structure DB where
  images : List ImageRec
  posters : List PosterRec
  banners : List BannerRec
  feedbacks : List FeedbackRec
  templates : List TemplateRec
deriving Repr, DecidableEq

def emptyDB : DB := ⟨[], [], [], [], []⟩

def encodeImage (r : ImageRec) : JVal :=
  .jobj [("_id", .jstr r.oid), ("expertId", .jstr r.expertId),
         ("imageurl", .jstr r.imageurl), ("type", .jstr r.type),
         ("name", .jstr r.name), ("createdAt", .jnum r.createdAt),
         ("updatedAt", .jnum r.updatedAt)]

def encodePoster (r : PosterRec) : JVal :=
  .jobj [("_id", .jstr r.oid), ("image1url", .jstr r.image1url),
         ("image2url", .jstr r.image2url), ("type", .jnum r.type),
         ("name", .jstr r.name), ("createdAt", .jnum r.createdAt),
         ("updatedAt", .jnum r.updatedAt)]

def encodeBanner (r : BannerRec) : JVal :=
  .jobj [("_id", .jstr r.oid), ("type", .jstr r.type),
         ("imageurl", .jstr r.imageurl), ("name", .jstr r.name),
         ("createdAt", .jnum r.createdAt), ("updatedAt", .jnum r.updatedAt)]

/-- A key that is absent from the document is omitted from its JSON. -/
def optField (k : String) : Option String → List (String × JVal)
  | none => []
  | some v => [(k, .jstr v)]

def encodeTemplate (r : TemplateRec) : JVal :=
  .jobj ([("_id", .jstr r.oid)] ++ optField "raid" r.raid ++
         optField "templatename" r.templatename ++
         optField "headingcontent" r.headingcontent ++
         optField "footercontent" r.footercontent ++
         optField "type" r.type ++
         [("createdAt", .jnum r.createdAt), ("updatedAt", .jnum r.updatedAt)])

/-- `Model.findById`: the document whose `_id` equals `id`, if any. -/
def findDoc {α : Type} (oid : α → String) (l : List α) (id : String) : Option α :=
  l.find? (fun r => oid r == id)

/-- Replacement of the matched document, as performed by `findByIdAndUpdate`. -/
def setDoc {α : Type} (oid : α → String) (l : List α) (id : String) (r2 : α) : List α :=
  l.map (fun r => if oid r == id then r2 else r)

/-- Removal of the matched document, as performed by `findByIdAndDelete`. -/
def removeDoc {α : Type} (oid : α → String) (l : List α) (id : String) : List α :=
  l.eraseP (fun r => oid r == id)

/-- JavaScript truthiness of a possibly absent string field. -/
def truthyS : Option String → Bool
  | none => false
  | some s => s != ""

/-- JavaScript truthiness of a possibly absent numeric field. -/
def truthyI : Option Int → Bool
  | none => false
  | some n => n != 0

def imageTypes : List String := ["blur", "marketing", "premium"]

def posterTypes : List Int := [1, 2, 3]

def allowedBannerTypes : List String := ["home", "webinar", "course"]

/-- The hexadecimal-digit test behind the source regex `[0-9a-fA-F]`. -/
def hexDigit (c : Char) : Bool :=
  (decide ('0' ≤ c) && decide (c ≤ '9')) ||
  (decide ('a' ≤ c) && decide (c ≤ 'f')) ||
  (decide ('A' ≤ c) && decide (c ≤ 'F'))

/-- The banner id format check `id.match(/^[0-9a-fA-F]{24}$/)`. -/
def isHex24 (s : String) : Bool :=
  s.length == 24 && s.toList.all hexDigit

/-- Request body of POST /ra-dashboard/image. -/
structure ImageBody where
  expertId : Option String
  imageurl : Option String
  type : Option String
  name : Option String
deriving Repr, DecidableEq

/-- Request body of PATCH /ra-dashboard/image/:id. `otherKeys` are the keys
outside the schema: they count for `Object.keys(updateData).length` but are
stripped by strict mode before the `$set`. -/
structure ImagePatch where
  expertId : Option String
  imageurl : Option String
  type : Option String
  name : Option String
  otherKeys : List String
deriving Repr, DecidableEq

/-- `!Object.keys(updateData).length` for the image patch body. -/
def ImagePatch.isEmpty (b : ImagePatch) : Bool :=
  b.expertId.isNone && b.imageurl.isNone && b.type.isNone && b.name.isNone &&
  b.otherKeys.isEmpty

/-- The patch body supplies exactly one schema field and nothing else. -/
def ImagePatch.singleField (b : ImagePatch) : Bool :=
  ((if b.expertId.isSome then 1 else 0) + (if b.imageurl.isSome then 1 else 0) +
   (if b.type.isSome then 1 else 0) + (if b.name.isSome then 1 else 0) == 1) &&
  b.otherKeys.isEmpty

/-- An update validator on a set string path (`required` rejects the empty
string). Paths not being set are not validated. -/
def validStrSet : Option String → Bool
  | none => true
  | some s => s != ""

/-- `runValidators: true` on the image `$set` paths: set string paths must be
non-empty and a set `type` must be one of the declared enum values. -/
def validImagePatch (b : ImagePatch) : Bool :=
  validStrSet b.expertId && validStrSet b.imageurl && validStrSet b.name &&
  (match b.type with
   | none => true
   | some t => imageTypes.contains t)

/-- The `$set` merge of `findByIdAndUpdate` with `timestamps: true`. -/
def applyImagePatch (b : ImagePatch) (r : ImageRec) (now : Nat) : ImageRec :=
  { r with
    expertId := b.expertId.getD r.expertId
    imageurl := b.imageurl.getD r.imageurl
    type := b.type.getD r.type
    name := b.name.getD r.name
    updatedAt := now }

/-- Handler of POST /ra-dashboard/image. -/
def postRaDashboardImage (fail : Option String) (newId : String) (now : Nat)
    (b : ImageBody) (db : DB) : DB × Resp :=
  if !(truthyS b.expertId && truthyS b.imageurl && truthyS b.type && truthyS b.name) then
    (db, ⟨400, jmsg "All required fields must be provided"⟩)
  else if !(imageTypes.contains (b.type.getD "")) then
    (db, serverError "RADashboardImage validation failed")
  else
    match fail with
    | some e => (db, serverError e)
    | none =>
      let r : ImageRec :=
        { oid := newId, expertId := b.expertId.getD "", imageurl := b.imageurl.getD ""
          type := b.type.getD "", name := b.name.getD ""
          createdAt := now, updatedAt := now }
      ({ db with images := db.images ++ [r] },
       ⟨201, .jobj [("message", .jstr "Image added successfully"), ("data", encodeImage r)]⟩)

/-- Handler of PATCH /ra-dashboard/image/:id. -/
def patchRaDashboardImage (fail : Option String) (now : Nat) (id : String)
    (b : ImagePatch) (db : DB) : DB × Resp :=
  if b.isEmpty then
    (db, ⟨400, jmsg "No fields provided for update."⟩)
  else if !validImagePatch b then
    (db, serverError "RADashboardImage validation failed")
  else
    match fail with
    | some e => (db, serverError e)
    | none =>
      match findDoc ImageRec.oid db.images id with
      | none => (db, ⟨404, jmsg ("No image found with id " ++ sq ++ id ++ sq)⟩)
      | some r =>
        let r2 := applyImagePatch b r now
        ({ db with images := setDoc ImageRec.oid db.images id r2 },
         ⟨200, .jobj [("message", .jstr "Image updated successfully"),
                      ("data", encodeImage r2)]⟩)

/-- Handler of DELETE /ra-dashboard/image/:id. -/
def deleteRaDashboardImage (fail : Option String) (id : String) (db : DB) : DB × Resp :=
  match fail with
  | some e => (db, serverError e)
  | none =>
    match findDoc ImageRec.oid db.images id with
    | none => (db, ⟨404, jmsg ("No image found with id " ++ sq ++ id ++ sq)⟩)
    | some r =>
      ({ db with images := removeDoc ImageRec.oid db.images id },
       ⟨200, .jobj [("message", .jstr "Image deleted successfully"),
                    ("data", encodeImage r)]⟩)

/-- Handler of GET /ra-dashboard/images. -/
def getRaDashboardImages (fail : Option String) (db : DB) : DB × Resp :=
  match fail with
  | some e => (db, serverError e)
  | none =>
    (db, ⟨200, .jobj [("message", .jstr "Images retrieved successfully"),
                      ("data", .jarr (db.images.map encodeImage))]⟩)

/-- Handler of GET /ra-dashboard/images/:expertId. -/
def getRaDashboardImagesByExpertId (fail : Option String) (expertId : String)
    (db : DB) : DB × Resp :=
  match fail with
  | some e => (db, serverError e)
  | none =>
    let images := db.images.filter (fun r => r.expertId == expertId)
    if images.isEmpty then
      (db, ⟨404, jmsg ("No images found for expertId " ++ sq ++ expertId ++ sq)⟩)
    else
      (db, ⟨200, .jobj [("message", .jstr ("Images for expertId " ++ sq ++ expertId ++ sq ++
                                           " fetched successfully")),
                        ("data", .jarr (images.map encodeImage))]⟩)

/-- Request body of POST /admin/poster (`type` is a Number in the schema). -/
structure PosterBody where
  image1url : Option String
  image2url : Option String
  type : Option Int
  name : Option String
deriving Repr, DecidableEq

/-- Request body of PATCH /admin/poster/:id. -/
structure PosterPatch where
  image1url : Option String
  image2url : Option String
  type : Option Int
  name : Option String
  otherKeys : List String
deriving Repr, DecidableEq

/-- `!Object.keys(updateData).length` for the poster patch body. -/
def PosterPatch.isEmpty (b : PosterPatch) : Bool :=
  b.image1url.isNone && b.image2url.isNone && b.type.isNone && b.name.isNone &&
  b.otherKeys.isEmpty

/-- The patch body supplies exactly one schema field and nothing else. -/
def PosterPatch.singleField (b : PosterPatch) : Bool :=
  ((if b.image1url.isSome then 1 else 0) + (if b.image2url.isSome then 1 else 0) +
   (if b.type.isSome then 1 else 0) + (if b.name.isSome then 1 else 0) == 1) &&
  b.otherKeys.isEmpty

/-- `runValidators: true` on the poster `$set` paths. -/
def validPosterPatch (b : PosterPatch) : Bool :=
  validStrSet b.image1url && validStrSet b.image2url && validStrSet b.name &&
  (match b.type with
   | none => true
   | some t => posterTypes.contains t)

/-- The `$set` merge of `findByIdAndUpdate` for posters. -/
def applyPosterPatch (b : PosterPatch) (r : PosterRec) (now : Nat) : PosterRec :=
  { r with
    image1url := b.image1url.getD r.image1url
    image2url := b.image2url.getD r.image2url
    type := b.type.getD r.type
    name := b.name.getD r.name
    updatedAt := now }

/-- Handler of POST /admin/poster. -/
def postAdminPoster (fail : Option String) (newId : String) (now : Nat)
    (b : PosterBody) (db : DB) : DB × Resp :=
  if !(truthyS b.image1url && truthyS b.image2url && truthyI b.type && truthyS b.name) then
    (db, ⟨400, jmsg "All required fields must be provided"⟩)
  else if !(posterTypes.contains (b.type.getD 0)) then
    (db, serverError "AdminPoster validation failed")
  else
    match fail with
    | some e => (db, serverError e)
    | none =>
      let r : PosterRec :=
        { oid := newId, image1url := b.image1url.getD "", image2url := b.image2url.getD ""
          type := b.type.getD 0, name := b.name.getD ""
          createdAt := now, updatedAt := now }
      ({ db with posters := db.posters ++ [r] },
       ⟨201, .jobj [("message", .jstr "Poster added successfully"), ("data", encodePoster r)]⟩)

/-- Handler of GET /admin/posters. -/
def getAdminPosters (fail : Option String) (db : DB) : DB × Resp :=
  match fail with
  | some e => (db, serverError e)
  | none =>
    (db, ⟨200, .jobj [("message", .jstr "Posters retrieved successfully"),
                      ("data", .jarr (db.posters.map encodePoster))]⟩)

/-- Handler of DELETE /admin/poster/:id. -/
def deleteAdminPoster (fail : Option String) (id : String) (db : DB) : DB × Resp :=
  match fail with
  | some e => (db, serverError e)
  | none =>
    match findDoc PosterRec.oid db.posters id with
    | none => (db, ⟨404, jmsg ("No poster found with id " ++ sq ++ id ++ sq)⟩)
    | some r =>
      ({ db with posters := removeDoc PosterRec.oid db.posters id },
       ⟨200, .jobj [("message", .jstr "Poster deleted successfully"),
                    ("data", encodePoster r)]⟩)

/-- Handler of PATCH /admin/poster/:id. -/
def patchAdminPoster (fail : Option String) (now : Nat) (id : String)
    (b : PosterPatch) (db : DB) : DB × Resp :=
  if b.isEmpty then
    (db, ⟨400, jmsg "No fields provided for update."⟩)
  else if !validPosterPatch b then
    (db, serverError "AdminPoster validation failed")
  else
    match fail with
    | some e => (db, serverError e)
    | none =>
      match findDoc PosterRec.oid db.posters id with
      | none => (db, ⟨404, jmsg ("No poster found with id " ++ sq ++ id ++ sq)⟩)
      | some r =>
        let r2 := applyPosterPatch b r now
        ({ db with posters := setDoc PosterRec.oid db.posters id r2 },
         ⟨200, .jobj [("message", .jstr "Poster updated successfully"),
                      ("data", encodePoster r2)]⟩)

/-- Request body of POST /banner. -/
structure BannerBody where
  type : Option String
  imageurl : Option String
  name : Option String
deriving Repr, DecidableEq

/-- Handler of GET /banner: the list is returned bare, without the
`{ message, data }` envelope. -/
def getBanners (fail : Option String) (db : DB) : DB × Resp :=
  match fail with
  | some e => (db, serverError e)
  | none => (db, ⟨200, .jarr (db.banners.map encodeBanner)⟩)

/-- Handler of GET /banner/:id: the id format check runs before any store
access, and a found banner is returned bare. -/
def getBannerById (fail : Option String) (id : String) (db : DB) : DB × Resp :=
  if !isHex24 id then
    (db, ⟨400, jmsg "Invalid banner ID format."⟩)
  else
    match fail with
    | some e => (db, serverError e)
    | none =>
      match findDoc BannerRec.oid db.banners id with
      | none => (db, ⟨404, jmsg ("No banner found with id " ++ sq ++ id ++ sq)⟩)
      | some r => (db, ⟨200, encodeBanner r⟩)

/-- Handler of POST /banner. The schema trims string fields on set, and
`save` re-runs the validators on the trimmed values (required rejects a
value that trims to the empty string). -/
def postBanner (fail : Option String) (newId : String) (now : Nat)
    (b : BannerBody) (db : DB) : DB × Resp :=
  if !(truthyS b.type && truthyS b.imageurl && truthyS b.name) then
    (db, ⟨400, jmsg "All fields are required."⟩)
  else if !(allowedBannerTypes.contains (b.type.getD "")) then
    (db, ⟨400, jmsg ("Type must be one of: " ++ String.intercalate ", " allowedBannerTypes)⟩)
  else if !((b.imageurl.getD "").trim != "" && (b.name.getD "").trim != "" &&
            allowedBannerTypes.contains ((b.type.getD "").trim)) then
    (db, serverError "Banner validation failed")
  else
    match fail with
    | some e => (db, serverError e)
    | none =>
      let r : BannerRec :=
        { oid := newId, type := (b.type.getD "").trim
          imageurl := (b.imageurl.getD "").trim, name := (b.name.getD "").trim
          createdAt := now, updatedAt := now }
      ({ db with banners := db.banners ++ [r] },
       ⟨201, .jobj [("message", .jstr "Banner created successfully"),
                    ("data", encodeBanner r)]⟩)

/-- Handler of DELETE /banner/:id: the id format check runs before any store
access. -/
def deleteBannerById (fail : Option String) (id : String) (db : DB) : DB × Resp :=
  if !isHex24 id then
    (db, ⟨400, jmsg "Invalid banner ID format."⟩)
  else
    match fail with
    | some e => (db, serverError e)
    | none =>
      match findDoc BannerRec.oid db.banners id with
      | none => (db, ⟨404, jmsg ("No banner found with id " ++ sq ++ id ++ sq)⟩)
      | some r =>
        ({ db with banners := removeDoc BannerRec.oid db.banners id },
         ⟨200, .jobj [("message", .jstr "Banner deleted successfully"),
                      ("data", encodeBanner r)]⟩)

/-- Request body of POST /template and PATCH /template/:id: the handler
destructures exactly these five keys. -/
structure TemplateBody where
  raid : Option String
  templatename : Option String
  headingcontent : Option String
  footercontent : Option String
  type : Option String
deriving Repr, DecidableEq

/-- The all-absent template body (an empty JSON request body). -/
def emptyTemplateBody : TemplateBody := ⟨none, none, none, none, none⟩

/-- Handler of GET /template: the list is returned bare, and the catch
block sends only `{ error }`. -/
def getTemplates (fail : Option String) (db : DB) : DB × Resp :=
  match fail with
  | some e => (db, ⟨500, .jobj [("error", .jstr e)]⟩)
  | none => (db, ⟨200, .jarr (db.templates.map encodeTemplate)⟩)

/-- A JavaScript array is always truthy, even when empty: `Model.find`
resolves to an array, so `!template` in the source is always false. -/
def arrayFalsy {α : Type} (_l : List α) : Bool := false

/-- Handler of GET /template/:raid. The source guards the 404 with
`if (!template)` where `template` is the array returned by `find`, so the
404 branch is unreachable and a zero-match filter yields 200 with `[]`. -/
def getTemplateByRaid (fail : Option String) (raid : String) (db : DB) : DB × Resp :=
  match fail with
  | some e => (db, ⟨500, .jobj [("error", .jstr e)]⟩)
  | none =>
    let found := db.templates.filter (fun t => t.raid == some raid)
    if arrayFalsy found then
      (db, ⟨404, jmsg "Template not found with the provided raid"⟩)
    else
      (db, ⟨200, .jarr (found.map encodeTemplate)⟩)

/-- Handler of POST /template: no validation at all, the saved document is
returned bare with 201, and the catch block sends 400 `{ error }`. -/
def postTemplate (fail : Option String) (newId : String) (now : Nat)
    (b : TemplateBody) (db : DB) : DB × Resp :=
  match fail with
  | some e => (db, ⟨400, .jobj [("error", .jstr e)]⟩)
  | none =>
    let r : TemplateRec :=
      { oid := newId, raid := b.raid, templatename := b.templatename
        headingcontent := b.headingcontent, footercontent := b.footercontent
        type := b.type, createdAt := now, updatedAt := now }
    ({ db with templates := db.templates ++ [r] }, ⟨201, encodeTemplate r⟩)

/-- Handler of DELETE /template/:id: the success body is only a message;
the removed document is not returned. -/
def deleteTemplateById (fail : Option String) (id : String) (db : DB) : DB × Resp :=
  match fail with
  | some e => (db, ⟨500, .jobj [("error", .jstr e)]⟩)
  | none =>
    match findDoc TemplateRec.oid db.templates id with
    | none => (db, ⟨404, jmsg "Template not found"⟩)
    | some _ =>
      ({ db with templates := removeDoc TemplateRec.oid db.templates id },
       ⟨200, jmsg "Template deleted successfully"⟩)

/-- The update object `{ raid, templatename, headingcontent, footercontent,
type }` of the template patch: keys whose destructured value is `undefined`
are dropped, so only supplied fields change. -/
def applyTemplatePatch (b : TemplateBody) (r : TemplateRec) (now : Nat) : TemplateRec :=
  { r with
    raid := match b.raid with | none => r.raid | some v => some v
    templatename := match b.templatename with | none => r.templatename | some v => some v
    headingcontent := match b.headingcontent with | none => r.headingcontent | some v => some v
    footercontent := match b.footercontent with | none => r.footercontent | some v => some v
    type := match b.type with | none => r.type | some v => some v
    updatedAt := now }

/-- Handler of PATCH /template/:id: no emptiness check and no
`runValidators`; the updated document is returned bare; the catch block
sends 400 `{ error }`. -/
def patchTemplateById (fail : Option String) (now : Nat) (id : String)
    (b : TemplateBody) (db : DB) : DB × Resp :=
  match fail with
  | some e => (db, ⟨400, .jobj [("error", .jstr e)]⟩)
  | none =>
    match findDoc TemplateRec.oid db.templates id with
    | none => (db, ⟨404, jmsg "Template not found"⟩)
    | some r =>
      let r2 := applyTemplatePatch b r now
      ({ db with templates := setDoc TemplateRec.oid db.templates id r2 },
       ⟨200, encodeTemplate r2⟩)

/-- One HTTP request to the router, together with the environment the
store supplies while serving it: `fail` is the exception thrown by the
awaited store call (if any), `newId` the ObjectId the store assigns on
insert, and `now` the timestamp used for `timestamps: true`. -/
inductive Req where
  | postImage (fail : Option String) (newId : String) (now : Nat) (b : ImageBody)
  | patchImage (fail : Option String) (now : Nat) (id : String) (b : ImagePatch)
  | deleteImage (fail : Option String) (id : String)
  | listImages (fail : Option String)
  | listImagesByExpert (fail : Option String) (expertId : String)
  | postPoster (fail : Option String) (newId : String) (now : Nat) (b : PosterBody)
  | listPosters (fail : Option String)
  | deletePoster (fail : Option String) (id : String)
  | patchPoster (fail : Option String) (now : Nat) (id : String) (b : PosterPatch)
  | listBanners (fail : Option String)
  | getBanner (fail : Option String) (id : String)
  | createBanner (fail : Option String) (newId : String) (now : Nat) (b : BannerBody)
  | deleteBanner (fail : Option String) (id : String)
  | listTemplates (fail : Option String)
  | getTemplatesByRaid (fail : Option String) (raid : String)
  | createTemplate (fail : Option String) (newId : String) (now : Nat) (b : TemplateBody)
  | deleteTemplate (fail : Option String) (id : String)
  | patchTemplate (fail : Option String) (now : Nat) (id : String) (b : TemplateBody)

/-- The router: dispatch of one request to its handler. -/
def handle : Req → DB → DB × Resp
  | .postImage fail newId now b, db => postRaDashboardImage fail newId now b db
  | .patchImage fail now id b, db => patchRaDashboardImage fail now id b db
  | .deleteImage fail id, db => deleteRaDashboardImage fail id db
  | .listImages fail, db => getRaDashboardImages fail db
  | .listImagesByExpert fail expertId, db => getRaDashboardImagesByExpertId fail expertId db
  | .postPoster fail newId now b, db => postAdminPoster fail newId now b db
  | .listPosters fail, db => getAdminPosters fail db
  | .deletePoster fail id, db => deleteAdminPoster fail id db
  | .patchPoster fail now id b, db => patchAdminPoster fail now id b db
  | .listBanners fail, db => getBanners fail db
  | .getBanner fail id, db => getBannerById fail id db
  | .createBanner fail newId now b, db => postBanner fail newId now b db
  | .deleteBanner fail id, db => deleteBannerById fail id db
  | .listTemplates fail, db => getTemplates fail db
  | .getTemplatesByRaid fail raid, db => getTemplateByRaid fail raid db
  | .createTemplate fail newId now b, db => postTemplate fail newId now b db
  | .deleteTemplate fail id, db => deleteTemplateById fail id db
  | .patchTemplate fail now id b, db => patchTemplateById fail now id b db

/-- The store failure attached to a request, if any. -/
def Req.storeFailure : Req → Option String
  | .postImage fail _ _ _ => fail
  | .patchImage fail _ _ _ => fail
  | .deleteImage fail _ => fail
  | .listImages fail => fail
  | .listImagesByExpert fail _ => fail
  | .postPoster fail _ _ _ => fail
  | .listPosters fail => fail
  | .deletePoster fail _ => fail
  | .patchPoster fail _ _ _ => fail
  | .listBanners fail => fail
  | .getBanner fail _ => fail
  | .createBanner fail _ _ _ => fail
  | .deleteBanner fail _ => fail
  | .listTemplates fail => fail
  | .getTemplatesByRaid fail _ => fail
  | .createTemplate fail _ _ _ => fail
  | .deleteTemplate fail _ => fail
  | .patchTemplate fail _ _ _ => fail

/-- Whether the pre-store checks of the handler pass, so that the store
call is actually reached and its failure is the one being caught. -/
def Req.checksPass : Req → Bool
  | .postImage _ _ _ b =>
      truthyS b.expertId && truthyS b.imageurl && truthyS b.type && truthyS b.name &&
      imageTypes.contains (b.type.getD "")
  | .patchImage _ _ _ b => !b.isEmpty && validImagePatch b
  | .postPoster _ _ _ b =>
      truthyS b.image1url && truthyS b.image2url && truthyI b.type && truthyS b.name &&
      posterTypes.contains (b.type.getD 0)
  | .patchPoster _ _ _ b => !b.isEmpty && validPosterPatch b
  | .getBanner _ id => isHex24 id
  | .createBanner _ _ _ b =>
      truthyS b.type && truthyS b.imageurl && truthyS b.name &&
      allowedBannerTypes.contains (b.type.getD "") &&
      (b.imageurl.getD "").trim != "" && (b.name.getD "").trim != "" &&
      allowedBannerTypes.contains ((b.type.getD "").trim)
  | .deleteBanner _ id => isHex24 id
  | _ => true

/-- The two handlers whose catch block answers 400 instead of 500:
POST /template and PATCH /template/:id. -/
def Req.isTemplateWrite : Req → Bool
  | .createTemplate _ _ _ _ => true
  | .patchTemplate _ _ _ _ => true
  | _ => false

/-- The state after serving a sequence of requests. -/
def applySeq (rs : List Req) (db : DB) : DB :=
  rs.foldl (fun d r => (handle r d).1) db

/-- A concrete stored image used by witnesses. -/
def img0 : ImageRec :=
  { oid := "a1", expertId := "e1", imageurl := "http://x/a.png", type := "blur"
    name := "n1", createdAt := 1, updatedAt := 1 }

/-- A concrete stored poster used by witnesses. -/
def poster0 : PosterRec :=
  { oid := "p1", image1url := "http://x/1.png", image2url := "http://x/2.png"
    type := 1, name := "n1", createdAt := 1, updatedAt := 1 }

/-- A concrete stored banner used by witnesses; its id is 24 hex characters. -/
def banner0 : BannerRec :=
  { oid := "0123456789abcdef01234567", type := "home", imageurl := "http://x/b.png"
    name := "n1", createdAt := 1, updatedAt := 1 }

/-- A concrete stored template used by counterexamples and witnesses. -/
def tpl0 : TemplateRec :=
  { oid := "t1", raid := some "r1", templatename := some "welcome"
    headingcontent := some "h", footercontent := some "f", type := some "text"
    createdAt := 1, updatedAt := 1 }

def dbOneImage : DB := { emptyDB with images := [img0] }

def dbOnePoster : DB := { emptyDB with posters := [poster0] }

def dbOneBanner : DB := { emptyDB with banners := [banner0] }

def dbOneTemplate : DB := { emptyDB with templates := [tpl0] }

/-! Helper lemmas shared by the claim theorems. -/

theorem getD_getD {α : Type} (o : Option α) (x : α) : o.getD (o.getD x) = o.getD x := by
  cases o <;> rfl

theorem findDoc_oid {α : Type} (oid : α → String) (l : List α) (id : String) (r : α)
    (h : findDoc oid l id = some r) : oid r = id := by
  have := List.find?_some h
  simpa using this

theorem findDoc_set {α : Type} (oid : α → String) (l : List α) (id : String) (r r2 : α)
    (h : findDoc oid l id = some r) (h2 : oid r2 = id) :
    findDoc oid (setDoc oid l id r2) id = some r2 := by
  induction l with
  | nil => simp [findDoc] at h
  | cons a t ih =>
    by_cases hb : (oid a == id) = true
    · show List.find? (fun x => oid x == id)
        ((if oid a == id then r2 else a) :: setDoc oid t id r2) = some r2
      rw [if_pos hb]
      exact List.find?_cons_of_pos _ (by simp [h2])
    · show List.find? (fun x => oid x == id)
        ((if oid a == id then r2 else a) :: setDoc oid t id r2) = some r2
      rw [if_neg hb, List.find?_cons_of_neg _ (by simpa using hb)]
      apply ih
      have hfind : List.find? (fun x => oid x == id) (a :: t) = some r := h
      rwa [List.find?_cons_of_neg _ (by simpa using hb)] at hfind

/-! ### C1 -/

/-- C1: evaluated at the failing input. With zero matching records, the
per-owner image listing GET /ra-dashboard/images/:expertId does answer 404
and the global listing GET /ra-dashboard/images answers 200 with an empty
list, but the per-owner template listing GET /template/:raid answers 200
with an empty bare list instead of the claimed 404: its `if (!template)`
guard tests the array returned by `find`, which is always truthy, so the
404 branch is dead. -/
theorem c1_template_raid_zero_match_eval :
    (getRaDashboardImagesByExpertId none "e1" emptyDB).2.status = 404 ∧
    (getTemplateByRaid none "r1" emptyDB).2 = ⟨200, .jarr []⟩ ∧
    (getTemplateByRaid none "r1" dbOneImage).2 = ⟨200, .jarr []⟩ ∧
    (getRaDashboardImages none emptyDB).2.status = 200 :=
  ⟨rfl, rfl, rfl, rfl⟩

/-! ### C7 -/

/-- C7: a GET /banner/:id or DELETE /banner/:id request whose id is not a
24-character hexadecimal string answers 400 with message
"Invalid banner ID format." and leaves the database unchanged, whatever
the store contents and even if the store would fail: the format check runs
before any store access. -/
theorem c7_banner_id_format_check (fail : Option String) (id : String) (db : DB)
    (h : isHex24 id = false) :
    getBannerById fail id db = (db, ⟨400, jmsg "Invalid banner ID format."⟩) ∧
    deleteBannerById fail id db = (db, ⟨400, jmsg "Invalid banner ID format."⟩) := by
  constructor <;> simp [getBannerById, deleteBannerById, h]

/-- C7 witness: the spec scenario GET /api/banner/zzz, on a non-empty store
and with a store failure pending, still answers the constant 400. -/
theorem c7_witness :
    getBannerById (some "store down") "zzz" dbOneBanner =
      (dbOneBanner, ⟨400, jmsg "Invalid banner ID format."⟩) ∧
    deleteBannerById (some "store down") "zzz" dbOneBanner =
      (dbOneBanner, ⟨400, jmsg "Invalid banner ID format."⟩) :=
  c7_banner_id_format_check (some "store down") "zzz" dbOneBanner (by decide)

/-! ### C8 -/

/-- C8: for each create endpoint with required fields (image, poster,
banner), a request body in which some required field is absent or falsy
answers 400 and persists nothing: the database is returned unchanged. -/
theorem c8_create_missing_required_field :
    (∀ (fail : Option String) (newId : String) (now : Nat) (b : ImageBody) (db : DB),
      (truthyS b.expertId = false ∨ truthyS b.imageurl = false ∨
       truthyS b.type = false ∨ truthyS b.name = false) →
      postRaDashboardImage fail newId now b db =
        (db, ⟨400, jmsg "All required fields must be provided"⟩)) ∧
    (∀ (fail : Option String) (newId : String) (now : Nat) (b : PosterBody) (db : DB),
      (truthyS b.image1url = false ∨ truthyS b.image2url = false ∨
       truthyI b.type = false ∨ truthyS b.name = false) →
      postAdminPoster fail newId now b db =
        (db, ⟨400, jmsg "All required fields must be provided"⟩)) ∧
    (∀ (fail : Option String) (newId : String) (now : Nat) (b : BannerBody) (db : DB),
      (truthyS b.type = false ∨ truthyS b.imageurl = false ∨ truthyS b.name = false) →
      postBanner fail newId now b db = (db, ⟨400, jmsg "All fields are required."⟩)) := by
  refine ⟨?_, ?_, ?_⟩
  · intro fail newId now b db h
    rcases h with h | h | h | h <;> simp [postRaDashboardImage, h]
  · intro fail newId now b db h
    rcases h with h | h | h | h <;> simp [postAdminPoster, h]
  · intro fail newId now b db h
    rcases h with h | h | h <;> simp [postBanner, h]

/-- C8 witness: POST /ra-dashboard/image with `expertId` missing answers
400 and the store is unchanged. -/
theorem c8_witness :
    postRaDashboardImage none "a9" 5 ⟨none, some "http://x/u.png", some "blur", some "n"⟩ emptyDB =
      (emptyDB, ⟨400, jmsg "All required fields must be provided"⟩) :=
  c8_create_missing_required_field.1 none "a9" 5
    ⟨none, some "http://x/u.png", some "blur", some "n"⟩ emptyDB (Or.inl rfl)

/-! ### C2 -/

/-- The diagnostic-field guarantee the router actually honours: 404 bodies
carry `message`, 500 bodies carry the raw `error` string, 400 bodies carry
at least one of the two. -/
def errBodyOk (p : Resp) : Prop :=
  (p.status = 404 → p.body.hasKey "message" = true) ∧
  (p.status = 500 → p.body.hasKey "error" = true) ∧
  (p.status = 400 → (p.body.hasKey "message" || p.body.hasKey "error") = true)

theorem errBodyOk_msg400 (m : String) : errBodyOk ⟨400, jmsg m⟩ := by
  refine ⟨fun h => ?_, fun h => ?_, fun _ => rfl⟩ <;> simp at h

theorem errBodyOk_msg404 (m : String) : errBodyOk ⟨404, jmsg m⟩ := by
  refine ⟨fun _ => rfl, fun h => ?_, fun h => ?_⟩ <;> simp at h

theorem errBodyOk_serverError (e : String) : errBodyOk (serverError e) := by
  refine ⟨fun h => ?_, fun _ => rfl, fun h => ?_⟩ <;> simp [serverError] at h

theorem errBodyOk_err500 (e : String) : errBodyOk ⟨500, .jobj [("error", .jstr e)]⟩ := by
  refine ⟨fun h => ?_, fun _ => rfl, fun h => ?_⟩ <;> simp at h

theorem errBodyOk_err400 (e : String) : errBodyOk ⟨400, .jobj [("error", .jstr e)]⟩ := by
  refine ⟨fun h => ?_, fun h => ?_, fun _ => rfl⟩ <;> simp at h

theorem errBodyOk_ok200 (b : JVal) : errBodyOk ⟨200, b⟩ := by
  refine ⟨fun h => ?_, fun h => ?_, fun h => ?_⟩ <;> simp at h

theorem errBodyOk_ok201 (b : JVal) : errBodyOk ⟨201, b⟩ := by
  refine ⟨fun h => ?_, fun h => ?_, fun h => ?_⟩ <;> simp at h

/-- C2 counterexample: POST /ra-dashboard/image with all required fields
missing answers 400 whose body carries only `message` and no `error`
diagnostic string, refuting the claim that every error body carries both. -/
theorem c2_counterexample :
    (postRaDashboardImage none "a9" 5 ⟨none, none, none, none⟩ emptyDB).2.status = 400 ∧
    (postRaDashboardImage none "a9" 5 ⟨none, none, none, none⟩ emptyDB).2.body.hasKey "message" = true ∧
    (postRaDashboardImage none "a9" 5 ⟨none, none, none, none⟩ emptyDB).2.body.hasKey "error" = false :=
  ⟨rfl, rfl, rfl⟩

/-- C2 amended: every error response of the router is a JSON object
carrying at least one diagnostic field: a 404 body always carries
`message`, a 500 body always carries the raw `error` string, and a 400
body carries `message` or `error`; both fields together are only
guaranteed on the image, poster and banner catch-block 500s. -/
theorem c2_error_body_amended (r : Req) (db : DB) : errBodyOk (handle r db).2 := by
  cases r <;>
    (simp only [handle, postRaDashboardImage, patchRaDashboardImage, deleteRaDashboardImage,
      getRaDashboardImages, getRaDashboardImagesByExpertId, postAdminPoster, getAdminPosters,
      deleteAdminPoster, patchAdminPoster, getBanners, getBannerById, postBanner,
      deleteBannerById, getTemplates, getTemplateByRaid, postTemplate, deleteTemplateById,
      patchTemplateById]
     repeat' split
     all_goals
       first
         | exact errBodyOk_msg400 _
         | exact errBodyOk_msg404 _
         | exact errBodyOk_serverError _
         | exact errBodyOk_err500 _
         | exact errBodyOk_err400 _
         | exact errBodyOk_ok200 _
         | exact errBodyOk_ok201 _)

/-- C2 witness: a concrete 404 (DELETE of an absent image) carries a
`message` field. -/
theorem c2_witness :
    (handle (Req.deleteImage none "zz") emptyDB).2.body.hasKey "message" = true :=
  (c2_error_body_amended (Req.deleteImage none "zz") emptyDB).1 rfl

/-! ### C3 -/

/-- C3 counterexample: POST /template with the store call throwing (for
example the store being unavailable) answers 400, not the claimed 500: the
handler catch block is `res.status(400).send({ error: err.message })`. -/
theorem c3_counterexample :
    (postTemplate (some "store down") "t9" 5 emptyTemplateBody emptyDB).2.status = 400 ∧
    (postTemplate (some "store down") "t9" 5 emptyTemplateBody emptyDB).2.status ≠ 500 :=
  ⟨rfl, by decide⟩

/-- C3 amended: when a request reaches its store call (its pre-store
checks pass) and the call throws a failure that is none of the modelled
Validation/NotFound/Conflict outcomes, every handler answers 500 — except
the message-template create and update handlers, whose catch blocks answer
400. -/
theorem c3_unexpected_failure_amended (r : Req) (db : DB) (e : String)
    (hf : r.storeFailure = some e) (hc : r.checksPass = true) :
    (handle r db).2.status = if r.isTemplateWrite then 400 else 500 := by
  cases r <;>
    simp_all [handle, Req.storeFailure, Req.checksPass, Req.isTemplateWrite,
      postRaDashboardImage, patchRaDashboardImage, deleteRaDashboardImage,
      getRaDashboardImages, getRaDashboardImagesByExpertId, postAdminPoster,
      getAdminPosters, deleteAdminPoster, patchAdminPoster, getBanners,
      getBannerById, postBanner, deleteBannerById, getTemplates, getTemplateByRaid,
      postTemplate, deleteTemplateById, patchTemplateById, serverError]

/-- C3 witness: DELETE /ra-dashboard/image/:id with the store throwing
answers 500. -/
theorem c3_witness :
    (handle (Req.deleteImage (some "store down") "a1") emptyDB).2.status = 500 := by
  simpa [Req.isTemplateWrite] using
    c3_unexpected_failure_amended (Req.deleteImage (some "store down") "a1") emptyDB
      "store down" rfl rfl

/-! ### C4 -/

/-- C4 counterexample: PATCH /template/:id with an empty field set on an
existing record answers 200, not the claimed 400: the template patch
handler performs no `Object.keys` emptiness check. -/
theorem c4_counterexample :
    (patchTemplateById none 7 "t1" emptyTemplateBody dbOneTemplate).2.status = 200 ∧
    (patchTemplateById none 7 "t1" emptyTemplateBody dbOneTemplate).2.status ≠ 400 :=
  ⟨rfl, by decide⟩

/-- C4 amended: the image and poster PATCH endpoints answer 400 on an
empty field set and leave the database unchanged; the template PATCH
endpoint has no such check: on an existing record an empty field set
answers 200 and rewrites the record with only its modification timestamp
advanced. -/
theorem c4_empty_update_amended :
    (∀ (fail : Option String) (now : Nat) (id : String) (b : ImagePatch) (db : DB),
      b.isEmpty = true →
      patchRaDashboardImage fail now id b db =
        (db, ⟨400, jmsg "No fields provided for update."⟩)) ∧
    (∀ (fail : Option String) (now : Nat) (id : String) (b : PosterPatch) (db : DB),
      b.isEmpty = true →
      patchAdminPoster fail now id b db =
        (db, ⟨400, jmsg "No fields provided for update."⟩)) ∧
    (∀ (now : Nat) (id : String) (db : DB) (r : TemplateRec),
      findDoc TemplateRec.oid db.templates id = some r →
      patchTemplateById none now id emptyTemplateBody db =
        ({ db with templates := setDoc TemplateRec.oid db.templates id { r with updatedAt := now } },
         ⟨200, encodeTemplate { r with updatedAt := now }⟩)) := by
  refine ⟨?_, ?_, ?_⟩
  · intro fail now id b db h
    simp [patchRaDashboardImage, h]
  · intro fail now id b db h
    simp [patchAdminPoster, h]
  · intro now id db r h
    simp [patchTemplateById, h, applyTemplatePatch, emptyTemplateBody]

/-- C4 witness: the image part at a concrete empty body, and the template
part at a concrete existing record. -/
theorem c4_witness :
    patchRaDashboardImage none 9 "a1" ⟨none, none, none, none, []⟩ dbOneImage =
      (dbOneImage, ⟨400, jmsg "No fields provided for update."⟩) ∧
    patchTemplateById none 9 "t1" emptyTemplateBody dbOneTemplate =
      ({ dbOneTemplate with
          templates := setDoc TemplateRec.oid dbOneTemplate.templates "t1" { tpl0 with updatedAt := 9 } },
       ⟨200, encodeTemplate { tpl0 with updatedAt := 9 }⟩) :=
  ⟨c4_empty_update_amended.1 none 9 "a1" ⟨none, none, none, none, []⟩ dbOneImage rfl,
   c4_empty_update_amended.2.2 9 "t1" dbOneTemplate tpl0 rfl⟩

/-! ### C5 -/

/-- C5 counterexample: a successful DELETE /template/:id answers only a
success message: the body has no `data` key and does not return the
removed record's prior state, refuting the claim for the template kind. -/
theorem c5_counterexample :
    (deleteTemplateById none "t1" dbOneTemplate).2 = ⟨200, jmsg "Template deleted successfully"⟩ ∧
    (deleteTemplateById none "t1" dbOneTemplate).2.body.hasKey "data" = false :=
  ⟨rfl, rfl⟩

/-- C5 amended: every delete answers 404 with the database unchanged when
the identity matches no record, and removes the record otherwise; the
image, poster and banner endpoints return the removed record's prior state
under `data` (the banner endpoint first requires a 24-hex id), while the
template endpoint returns only a success message. -/
theorem c5_delete_amended :
    (∀ (id : String) (db : DB),
      (findDoc ImageRec.oid db.images id = none →
        deleteRaDashboardImage none id db =
          (db, ⟨404, jmsg ("No image found with id " ++ sq ++ id ++ sq)⟩)) ∧
      (∀ r, findDoc ImageRec.oid db.images id = some r →
        deleteRaDashboardImage none id db =
          ({ db with images := removeDoc ImageRec.oid db.images id },
           ⟨200, .jobj [("message", .jstr "Image deleted successfully"),
                        ("data", encodeImage r)]⟩))) ∧
    (∀ (id : String) (db : DB),
      (findDoc PosterRec.oid db.posters id = none →
        deleteAdminPoster none id db =
          (db, ⟨404, jmsg ("No poster found with id " ++ sq ++ id ++ sq)⟩)) ∧
      (∀ r, findDoc PosterRec.oid db.posters id = some r →
        deleteAdminPoster none id db =
          ({ db with posters := removeDoc PosterRec.oid db.posters id },
           ⟨200, .jobj [("message", .jstr "Poster deleted successfully"),
                        ("data", encodePoster r)]⟩))) ∧
    (∀ (id : String) (db : DB), isHex24 id = true →
      (findDoc BannerRec.oid db.banners id = none →
        deleteBannerById none id db =
          (db, ⟨404, jmsg ("No banner found with id " ++ sq ++ id ++ sq)⟩)) ∧
      (∀ r, findDoc BannerRec.oid db.banners id = some r →
        deleteBannerById none id db =
          ({ db with banners := removeDoc BannerRec.oid db.banners id },
           ⟨200, .jobj [("message", .jstr "Banner deleted successfully"),
                        ("data", encodeBanner r)]⟩))) ∧
    (∀ (id : String) (db : DB),
      (findDoc TemplateRec.oid db.templates id = none →
        deleteTemplateById none id db = (db, ⟨404, jmsg "Template not found"⟩)) ∧
      (∀ r, findDoc TemplateRec.oid db.templates id = some r →
        deleteTemplateById none id db =
          ({ db with templates := removeDoc TemplateRec.oid db.templates id },
           ⟨200, jmsg "Template deleted successfully"⟩))) := by
  refine ⟨fun id db => ⟨fun h => ?_, fun r h => ?_⟩,
          fun id db => ⟨fun h => ?_, fun r h => ?_⟩,
          fun id db hx => ⟨fun h => ?_, fun r h => ?_⟩,
          fun id db => ⟨fun h => ?_, fun r h => ?_⟩⟩ <;>
    simp [deleteRaDashboardImage, deleteAdminPoster, deleteBannerById, deleteTemplateById,
      h, *]

/-- C5 witness: deleting the one stored image by its id removes it and
returns its prior state; deleting an absent template answers 404. -/
theorem c5_witness :
    deleteRaDashboardImage none "a1" dbOneImage =
      ({ dbOneImage with images := removeDoc ImageRec.oid dbOneImage.images "a1" },
       ⟨200, .jobj [("message", .jstr "Image deleted successfully"),
                    ("data", encodeImage img0)]⟩) ∧
    deleteTemplateById none "zz" emptyDB = (emptyDB, ⟨404, jmsg "Template not found"⟩) :=
  ⟨(c5_delete_amended.1 "a1" dbOneImage).2 img0 (by decide),
   (c5_delete_amended.2.2.2 "zz" emptyDB).1 rfl⟩

/-! ### C6 -/

/-- C6: a successful partial update (non-empty field set, existing record,
validators passing, store up) overwrites exactly the supplied fields: the
stored record is replaced by a post-merge record that takes every supplied
field's new value, keeps every unsupplied field's prior value, keeps the
identity and creation timestamp, advances the modification timestamp, and
is the record returned in the response. For the image and poster endpoints
the `runValidators` re-check is the `validImagePatch`/`validPosterPatch`
hypothesis; the template schema declares no validators. -/
theorem c6_patch_frame :
    (∀ (now : Nat) (id : String) (b : ImagePatch) (db : DB) (r : ImageRec),
      findDoc ImageRec.oid db.images id = some r →
      b.isEmpty = false →
      validImagePatch b = true →
      ∃ r2,
        patchRaDashboardImage none now id b db =
          ({ db with images := setDoc ImageRec.oid db.images id r2 },
           ⟨200, .jobj [("message", .jstr "Image updated successfully"),
                        ("data", encodeImage r2)]⟩) ∧
        r2.oid = r.oid ∧ r2.createdAt = r.createdAt ∧ r2.updatedAt = now ∧
        (∀ v, b.expertId = some v → r2.expertId = v) ∧
        (b.expertId = none → r2.expertId = r.expertId) ∧
        (∀ v, b.imageurl = some v → r2.imageurl = v) ∧
        (b.imageurl = none → r2.imageurl = r.imageurl) ∧
        (∀ v, b.type = some v → r2.type = v) ∧
        (b.type = none → r2.type = r.type) ∧
        (∀ v, b.name = some v → r2.name = v) ∧
        (b.name = none → r2.name = r.name)) ∧
    (∀ (now : Nat) (id : String) (b : PosterPatch) (db : DB) (r : PosterRec),
      findDoc PosterRec.oid db.posters id = some r →
      b.isEmpty = false →
      validPosterPatch b = true →
      ∃ r2,
        patchAdminPoster none now id b db =
          ({ db with posters := setDoc PosterRec.oid db.posters id r2 },
           ⟨200, .jobj [("message", .jstr "Poster updated successfully"),
                        ("data", encodePoster r2)]⟩) ∧
        r2.oid = r.oid ∧ r2.createdAt = r.createdAt ∧ r2.updatedAt = now ∧
        (∀ v, b.image1url = some v → r2.image1url = v) ∧
        (b.image1url = none → r2.image1url = r.image1url) ∧
        (∀ v, b.image2url = some v → r2.image2url = v) ∧
        (b.image2url = none → r2.image2url = r.image2url) ∧
        (∀ v, b.type = some v → r2.type = v) ∧
        (b.type = none → r2.type = r.type) ∧
        (∀ v, b.name = some v → r2.name = v) ∧
        (b.name = none → r2.name = r.name)) ∧
    (∀ (now : Nat) (id : String) (b : TemplateBody) (db : DB) (r : TemplateRec),
      findDoc TemplateRec.oid db.templates id = some r →
      ∃ r2,
        patchTemplateById none now id b db =
          ({ db with templates := setDoc TemplateRec.oid db.templates id r2 },
           ⟨200, encodeTemplate r2⟩) ∧
        r2.oid = r.oid ∧ r2.createdAt = r.createdAt ∧ r2.updatedAt = now ∧
        (∀ v, b.raid = some v → r2.raid = some v) ∧
        (b.raid = none → r2.raid = r.raid) ∧
        (∀ v, b.templatename = some v → r2.templatename = some v) ∧
        (b.templatename = none → r2.templatename = r.templatename) ∧
        (∀ v, b.headingcontent = some v → r2.headingcontent = some v) ∧
        (b.headingcontent = none → r2.headingcontent = r.headingcontent) ∧
        (∀ v, b.footercontent = some v → r2.footercontent = some v) ∧
        (b.footercontent = none → r2.footercontent = r.footercontent) ∧
        (∀ v, b.type = some v → r2.type = some v) ∧
        (b.type = none → r2.type = r.type)) := by
  refine ⟨?_, ?_, ?_⟩
  · intro now id b db r hfound hne hval
    refine ⟨applyImagePatch b r now, ?_, rfl, rfl, rfl, ?_, ?_, ?_, ?_, ?_, ?_, ?_, ?_⟩
    · simp [patchRaDashboardImage, hfound, hne, hval]
    all_goals
      first
        | (intro v hv; simp [applyImagePatch, hv])
        | (intro hv; simp [applyImagePatch, hv])
  · intro now id b db r hfound hne hval
    refine ⟨applyPosterPatch b r now, ?_, rfl, rfl, rfl, ?_, ?_, ?_, ?_, ?_, ?_, ?_, ?_⟩
    · simp [patchAdminPoster, hfound, hne, hval]
    all_goals
      first
        | (intro v hv; simp [applyPosterPatch, hv])
        | (intro hv; simp [applyPosterPatch, hv])
  · intro now id b db r hfound
    refine ⟨applyTemplatePatch b r now, ?_, rfl, rfl, rfl,
           ?_, ?_, ?_, ?_, ?_, ?_, ?_, ?_, ?_, ?_⟩
    · simp [patchTemplateById, hfound]
    all_goals
      first
        | (intro v hv; simp [applyTemplatePatch, hv])
        | (intro hv; simp [applyTemplatePatch, hv])

/-- C6 witness: patching the one stored image's `expertId` succeeds with
status 200. -/
theorem c6_witness :
    (patchRaDashboardImage none 3 "a1" ⟨some "e2", none, none, none, []⟩ dbOneImage).2.status = 200 := by
  obtain ⟨r2, heq, -⟩ :=
    c6_patch_frame.1 3 "a1" ⟨some "e2", none, none, none, []⟩ dbOneImage img0
      (by decide) rfl rfl
  rw [heq]

/-! ### C9 -/

theorem imagePatch_single_not_empty (b : ImagePatch) (h : b.singleField = true) :
    b.isEmpty = false := by
  cases he : b.expertId <;> cases hu : b.imageurl <;> cases ht : b.type <;> cases hn : b.name <;>
    simp_all [ImagePatch.singleField, ImagePatch.isEmpty]

theorem posterPatch_single_not_empty (b : PosterPatch) (h : b.singleField = true) :
    b.isEmpty = false := by
  cases h1 : b.image1url <;> cases h2 : b.image2url <;> cases ht : b.type <;> cases hn : b.name <;>
    simp_all [PosterPatch.singleField, PosterPatch.isEmpty]

theorem applyImagePatch_twice (b : ImagePatch) (r : ImageRec) (t1 t2 : Nat) :
    applyImagePatch b (applyImagePatch b r t1) t2 =
      { applyImagePatch b r t1 with updatedAt := t2 } := by
  simp [applyImagePatch, getD_getD]

theorem applyPosterPatch_twice (b : PosterPatch) (r : PosterRec) (t1 t2 : Nat) :
    applyPosterPatch b (applyPosterPatch b r t1) t2 =
      { applyPosterPatch b r t1 with updatedAt := t2 } := by
  simp [applyPosterPatch, getD_getD]

/-- C9: for an existing record and a single-field update passing the
validators, applying the same update twice succeeds both times and the
second application changes no field of the stored record other than
advancing the modification timestamp. Stated for the image and poster
patch endpoints the claim cites. -/
theorem c9_single_field_update_idempotent :
    (∀ (t1 t2 : Nat) (id : String) (b : ImagePatch) (db : DB) (r : ImageRec),
      findDoc ImageRec.oid db.images id = some r →
      b.singleField = true →
      validImagePatch b = true →
      (patchRaDashboardImage none t1 id b db).2.status = 200 ∧
      (patchRaDashboardImage none t2 id b (patchRaDashboardImage none t1 id b db).1).2.status = 200 ∧
      ∃ r1 r2,
        findDoc ImageRec.oid (patchRaDashboardImage none t1 id b db).1.images id = some r1 ∧
        findDoc ImageRec.oid
          (patchRaDashboardImage none t2 id b
            (patchRaDashboardImage none t1 id b db).1).1.images id = some r2 ∧
        r2 = { r1 with updatedAt := t2 }) ∧
    (∀ (t1 t2 : Nat) (id : String) (b : PosterPatch) (db : DB) (r : PosterRec),
      findDoc PosterRec.oid db.posters id = some r →
      b.singleField = true →
      validPosterPatch b = true →
      (patchAdminPoster none t1 id b db).2.status = 200 ∧
      (patchAdminPoster none t2 id b (patchAdminPoster none t1 id b db).1).2.status = 200 ∧
      ∃ r1 r2,
        findDoc PosterRec.oid (patchAdminPoster none t1 id b db).1.posters id = some r1 ∧
        findDoc PosterRec.oid
          (patchAdminPoster none t2 id b
            (patchAdminPoster none t1 id b db).1).1.posters id = some r2 ∧
        r2 = { r1 with updatedAt := t2 }) := by
  constructor
  · intro t1 t2 id b db r hfound hsingle hval
    have hne : b.isEmpty = false := imagePatch_single_not_empty b hsingle
    have hoid : r.oid = id := findDoc_oid _ _ _ _ hfound
    have h1 : patchRaDashboardImage none t1 id b db =
        ({ db with images := setDoc ImageRec.oid db.images id (applyImagePatch b r t1) },
         ⟨200, .jobj [("message", .jstr "Image updated successfully"),
                      ("data", encodeImage (applyImagePatch b r t1))]⟩) := by
      simp [patchRaDashboardImage, hfound, hne, hval]
    have hfind1' : findDoc ImageRec.oid
        (setDoc ImageRec.oid db.images id (applyImagePatch b r t1)) id =
        some (applyImagePatch b r t1) :=
      findDoc_set _ _ _ _ _ hfound (by simpa [applyImagePatch] using hoid)
    have hfind1 : findDoc ImageRec.oid (patchRaDashboardImage none t1 id b db).1.images id =
        some (applyImagePatch b r t1) := by
      rw [h1]
      exact hfind1'
    have h2 : patchRaDashboardImage none t2 id b (patchRaDashboardImage none t1 id b db).1 =
        ({ (patchRaDashboardImage none t1 id b db).1 with
            images := setDoc ImageRec.oid (patchRaDashboardImage none t1 id b db).1.images id
              (applyImagePatch b (applyImagePatch b r t1) t2) },
         ⟨200, .jobj [("message", .jstr "Image updated successfully"),
                      ("data", encodeImage (applyImagePatch b (applyImagePatch b r t1) t2))]⟩) := by
      rw [h1]
      simp [patchRaDashboardImage, hfind1', hne, hval]
    refine ⟨by rw [h1], by rw [h2], applyImagePatch b r t1,
            applyImagePatch b (applyImagePatch b r t1) t2, hfind1, ?_, ?_⟩
    · rw [h2]
      exact findDoc_set _ _ _ _ _ hfind1 (by simpa [applyImagePatch] using hoid)
    · exact applyImagePatch_twice b r t1 t2
  · intro t1 t2 id b db r hfound hsingle hval
    have hne : b.isEmpty = false := posterPatch_single_not_empty b hsingle
    have hoid : r.oid = id := findDoc_oid _ _ _ _ hfound
    have h1 : patchAdminPoster none t1 id b db =
        ({ db with posters := setDoc PosterRec.oid db.posters id (applyPosterPatch b r t1) },
         ⟨200, .jobj [("message", .jstr "Poster updated successfully"),
                      ("data", encodePoster (applyPosterPatch b r t1))]⟩) := by
      simp [patchAdminPoster, hfound, hne, hval]
    have hfind1' : findDoc PosterRec.oid
        (setDoc PosterRec.oid db.posters id (applyPosterPatch b r t1)) id =
        some (applyPosterPatch b r t1) :=
      findDoc_set _ _ _ _ _ hfound (by simpa [applyPosterPatch] using hoid)
    have hfind1 : findDoc PosterRec.oid (patchAdminPoster none t1 id b db).1.posters id =
        some (applyPosterPatch b r t1) := by
      rw [h1]
      exact hfind1'
    have h2 : patchAdminPoster none t2 id b (patchAdminPoster none t1 id b db).1 =
        ({ (patchAdminPoster none t1 id b db).1 with
            posters := setDoc PosterRec.oid (patchAdminPoster none t1 id b db).1.posters id
              (applyPosterPatch b (applyPosterPatch b r t1) t2) },
         ⟨200, .jobj [("message", .jstr "Poster updated successfully"),
                      ("data", encodePoster (applyPosterPatch b (applyPosterPatch b r t1) t2))]⟩) := by
      rw [h1]
      simp [patchAdminPoster, hfind1', hne, hval]
    refine ⟨by rw [h1], by rw [h2], applyPosterPatch b r t1,
            applyPosterPatch b (applyPosterPatch b r t1) t2, hfind1, ?_, ?_⟩
    · rw [h2]
      exact findDoc_set _ _ _ _ _ hfind1 (by simpa [applyPosterPatch] using hoid)
    · exact applyPosterPatch_twice b r t1 t2

/-- C9 witness: patching the stored image's `name` twice gives 200 twice,
and the second result differs from the first only in `updatedAt`. -/
theorem c9_witness :
    (patchRaDashboardImage none 3 "a1" ⟨none, none, none, some "n2", []⟩ dbOneImage).2.status = 200 ∧
    (patchRaDashboardImage none 4 "a1" ⟨none, none, none, some "n2", []⟩
      (patchRaDashboardImage none 3 "a1" ⟨none, none, none, some "n2", []⟩ dbOneImage).1).2.status = 200 :=
  by
  obtain ⟨hs1, hs2, -⟩ :=
    c9_single_field_update_idempotent.1 3 4 "a1" ⟨none, none, none, some "n2", []⟩
      dbOneImage img0 (by decide) rfl rfl
  exact ⟨hs1, hs2⟩

/-! ### C10 -/

theorem handle_feedbacks (r : Req) (db : DB) : ((handle r db).1).feedbacks = db.feedbacks := by
  cases r <;>
    (simp only [handle, postRaDashboardImage, patchRaDashboardImage, deleteRaDashboardImage,
      getRaDashboardImages, getRaDashboardImagesByExpertId, postAdminPoster, getAdminPosters,
      deleteAdminPoster, patchAdminPoster, getBanners, getBannerById, postBanner,
      deleteBannerById, getTemplates, getTemplateByRaid, postTemplate, deleteTemplateById,
      patchTemplateById]
     repeat' split
     all_goals rfl)

theorem handle_resp_ignores_feedbacks (r : Req) (db : DB) (f : List FeedbackRec) :
    (handle r { db with feedbacks := f }).2 = (handle r db).2 := by
  cases r <;>
    (simp [handle, postRaDashboardImage, patchRaDashboardImage, deleteRaDashboardImage,
      getRaDashboardImages, getRaDashboardImagesByExpertId, postAdminPoster, getAdminPosters,
      deleteAdminPoster, patchAdminPoster, getBanners, getBannerById, postBanner,
      deleteBannerById, getTemplates, getTemplateByRaid, postTemplate, deleteTemplateById,
      patchTemplateById]
     repeat' split
     all_goals simp_all)

/-- C10: no route of the router reads or writes the Feedback collection:
serving any sequence of requests leaves the Feedback collection equal to
its initial contents, and every response is unchanged if the Feedback
collection is replaced by anything else. -/
theorem c10_feedback_collection_untouched :
    (∀ (rs : List Req) (db : DB), (applySeq rs db).feedbacks = db.feedbacks) ∧
    (∀ (r : Req) (db : DB) (f : List FeedbackRec),
      (handle r { db with feedbacks := f }).2 = (handle r db).2) := by
  constructor
  · intro rs
    induction rs with
    | nil => intro db; rfl
    | cons a t ih =>
      intro db
      calc (applySeq (a :: t) db).feedbacks
          = (applySeq t (handle a db).1).feedbacks := rfl
        _ = ((handle a db).1).feedbacks := ih _
        _ = db.feedbacks := handle_feedbacks a db
  · exact handle_resp_ignores_feedbacks

end PosterBackend
